import Mathlib

/-!
Shallow embedding of the playback timing and seek-coordination engine of
`pp.py` (a CLI video player built on an external decoder and an external
audio process).  Python floats are modelled by `ℚ`; the decoder capture,
the audio process and the timestamp cache are modelled as explicit state;
external side effects (killing or starting the audio process, writing the
decoder position) are recorded as an `PAction` trace returned alongside the
new state.  Text formatting of status messages (f-strings with embedded
numbers) is abstracted to fixed strings, since no property here depends on
the formatted digits.
-/

/-- A decoder capture handle (`cv2.VideoCapture`): the path it was opened
on, its position in milliseconds (`CAP_PROP_POS_MSEC`), and whether the
open succeeded (`isOpened`). -/
structure Cap where
  path : String
  pos_msec : ℚ
  opened : Bool
deriving DecidableEq, Repr

/-- One external audio process (`ffplay`) as started by `play_audio`:
the file it plays, the start offset it was given, and whether it is still
running (`poll() is None`). -/
structure AudioProc where
  file : String
  start_pos : ℚ
  running : Bool
deriving DecidableEq, Repr

/-- Externally visible actions of the controller: killing the audio
process group (`stop_audio`), spawning a new audio process (`play_audio`),
and writing the decoder position (`cap.set(CAP_PROP_POS_MSEC, ...)`). -/
inductive PAction where
  | audio_kill (file : String)
  | audio_start (file : String) (start_time : ℚ)
  | set_position (msec : ℚ)
deriving DecidableEq, Repr

/-- Metadata the decoder reports for an openable video file. -/
structure VideoFile where
  fps : ℚ
  frame_count : ℤ
deriving DecidableEq, Repr

/-- The mutable state of `VideoPlayer` (the fields the core engine touches). -/
structure PlayerState where
  video_files : List String
  current_index : ℕ
  is_playing : Bool
  is_muted : Bool
  timestamps : List (String × ℚ)
  cap : Option Cap
  fps : ℚ
  frame_count : ℤ
  playback_speed : ℚ
  status_text : String
  status_start_time : ℚ
  status_duration : ℚ
  audio_process : Option AudioProc
  pending_seek_operations : List ℚ
  seek_throttle_timer : Option ℕ
  execute_pending_seek : Bool
  audio_available : Bool
  throttle_delay : ℚ
deriving DecidableEq, Repr

/-- Python dict lookup with default 0: `self.timestamps.get(key, 0)`. -/
def ts_get (ts : List (String × ℚ)) (k : String) : ℚ :=
  match ts.find? (fun p => p.1 == k) with
  | some p => p.2
  | none => 0

/-- Python dict assignment: `self.timestamps[key] = v`. -/
def ts_set (ts : List (String × ℚ)) (k : String) (v : ℚ) : List (String × ℚ) :=
  if ts.any (fun p => p.1 == k) then
    ts.map (fun p => if p.1 == k then (k, v) else p)
  else
    ts ++ [(k, v)]

/-- `self.video_files[i]` (indices used by the player are always in range). -/
def file_at (files : List String) (i : ℕ) : String :=
  files.getD i ""

/-- The decoder collaborator: which paths `cv2.VideoCapture` can open, and
the fps / frame count it reports for them. -/
def find_video (env : List (String × VideoFile)) (p : String) : Option VideoFile :=
  (env.find? (fun e => e.1 == p)).map (fun e => e.2)

namespace VideoPlayer

/-- `show_status`: store the message and reset its start time to now. -/
def show_status (s : PlayerState) (message : String) (now : ℚ) : PlayerState :=
  { s with status_text := message, status_start_time := now }

/-- `draw_status_overlay`, reduced to its observable overlay content: given
the current time, return the updated state (lazy expiry clears the text)
and the overlay, `none` when absent or `some (text, alpha)` when drawn. -/
def draw_status_overlay (s : PlayerState) (now : ℚ) :
    PlayerState × Option (String × ℚ) :=
  if s.status_text = "" then (s, none)
  else
    let elapsed := now - s.status_start_time
    if elapsed > s.status_duration then
      ({ s with status_text := "" }, none)
    else
      let fade_start := s.status_duration - 1/2  -- 0.5
      let alpha := if elapsed > fade_start then 1 - (elapsed - fade_start) / (1/2) else 1
      (s, some (s.status_text, alpha))

/-- `stop_audio`: kill the process group when a process is running, then
always clear the handle. -/
def stop_audio (s : PlayerState) : PlayerState × List PAction :=
  match s.audio_process with
  | some p =>
      if p.running then ({ s with audio_process := none }, [.audio_kill p.file])
      else ({ s with audio_process := none }, [])
  | none => ({ s with audio_process := none }, [])

/-- `play_audio`: no-op when audio support is unavailable; otherwise stop
any existing process and spawn ffplay at the given start offset.  (The
ffplay command line — mute filter, atempo filter — is not modelled; only
the spawn itself and its start offset are recorded.) -/
def play_audio (s : PlayerState) (video_path : String) (start_time : ℚ) :
    PlayerState × List PAction :=
  if s.audio_available then
    let r := stop_audio s
    ({ r.1 with audio_process := some ⟨video_path, start_time, true⟩ },
     r.2 ++ [.audio_start video_path start_time])
  else (s, [])

/-- `set_audio_volume`: restart audio at the current position when a
process handle exists (the muted flag only affects the unmodelled ffplay
command line). -/
def set_audio_volume (s : PlayerState) (_muted : Bool) : PlayerState × List PAction :=
  if s.audio_process.isSome then
    let current_video := file_at s.video_files s.current_index
    let current_time := match s.cap with
      | some c => c.pos_msec / 1000
      | none => 0
    let r1 := stop_audio s
    let r2 := play_audio r1.1 current_video current_time
    (r2.1, r1.2 ++ r2.2)
  else (s, [])

/-- `load_video(index)`: save the current file's timestamp, stop audio,
switch `current_index`, open the new capture (replacing the released old
one even when the open fails), read fps and frame count, restore a saved
position when it is positive, restart audio there, and show a status
message.  `env` is the decoder collaborator; the returned `Bool` is the
Python return value.  (The window-title update is an unmodelled UI call;
the status text abstracts the f-string `"Playing: {name}"`.) -/
def load_video (env : List (String × VideoFile)) (now : ℚ)
    (s : PlayerState) (index : ℤ) : PlayerState × Bool × List PAction :=
  if 0 ≤ index ∧ index < (s.video_files.length : ℤ) then
    let s1 := match s.cap with
      | some c =>
          { s with timestamps :=
              (ts_set s.timestamps (file_at s.video_files s.current_index)
                (c.pos_msec / 1000)) }
      | none => s
    let r1 := stop_audio s1
    let i := index.toNat
    let s3 := { r1.1 with current_index := i }
    let video_path := file_at s3.video_files i
    match find_video env video_path with
    | none =>
        ({ s3 with cap := some ⟨video_path, 0, false⟩ }, false, r1.2)
    | some vf =>
        let s4 := { s3 with cap := some ⟨video_path, 0, true⟩,
                            fps := vf.fps, frame_count := vf.frame_count }
        let saved_time := ts_get s4.timestamps video_path
        let s5 := if saved_time > 0 then
            { s4 with cap := some ⟨video_path, saved_time * 1000, true⟩ }
          else s4
        let r2 := play_audio s5 video_path saved_time
        let s7 := show_status r2.1 ("Playing: " ++ video_path) now
        (s7, true, r1.2 ++ r2.2)
  else (s, false, [])

/-- `seek(seconds)`: relative seek, clamped first below by 0 and then
above by `duration = frame_count / fps`; restarts audio from the new
position when audio is available and a process handle exists. -/
def seek (s : PlayerState) (seconds : ℚ) : PlayerState × List PAction :=
  match s.cap with
  | none => (s, [])
  | some c =>
      let current_time := c.pos_msec / 1000
      let new_time := max 0 (current_time + seconds)
      let duration := (s.frame_count : ℚ) / s.fps
      let new_time2 := min new_time duration
      let s1 := { s with cap := some { c with pos_msec := new_time2 * 1000 } }
      if s1.audio_available && s1.audio_process.isSome then
        let current_video := file_at s1.video_files s1.current_index
        let r1 := stop_audio s1
        let r2 := play_audio r1.1 current_video new_time2
        (r2.1, [.set_position (new_time2 * 1000)] ++ r1.2 ++ r2.2)
      else (s1, [.set_position (new_time2 * 1000)])

/-- `seek_to_position(position)`: absolute seek, clamped to
`[0, duration]`; restarts audio when available and a process exists. -/
def seek_to_position (s : PlayerState) (position : ℚ) : PlayerState × List PAction :=
  match s.cap with
  | none => (s, [])
  | some c =>
      let duration := (s.frame_count : ℚ) / s.fps
      let position2 := max 0 (min position duration)
      let s1 := { s with cap := some { c with pos_msec := position2 * 1000 } }
      if s1.audio_available && s1.audio_process.isSome then
        let current_video := file_at s1.video_files s1.current_index
        let r1 := stop_audio s1
        let r2 := play_audio r1.1 current_video position2
        (r2.1, [.set_position (position2 * 1000)] ++ r1.2 ++ r2.2)
      else (s1, [.set_position (position2 * 1000)])

/-- `set_execute_seek_flag` (the debounce-timer callback): only raises the
cross-thread ready flag. -/
def set_execute_seek_flag (s : PlayerState) : PlayerState :=
  { s with execute_pending_seek := true }

/-- `execute_throttled_seeks`: consolidate the pending deltas into one
seek — their sum, multiplied by 5.0 when there are 3 or more of them —
show a status message, clear the pending list and the ready flag, clamp
the target to `[0, duration]`, write it to the decoder and restart audio
from it when audio is available.  (The status texts abstract the
f-strings with the formatted amount and operation count.) -/
def execute_throttled_seeks (now : ℚ) (s : PlayerState) : PlayerState × List PAction :=
  if s.pending_seek_operations.isEmpty then (s, [])
  else
    let total_seek := s.pending_seek_operations.sum
    let many := 3 ≤ s.pending_seek_operations.length
    let total_seek := if many then total_seek * 5 else total_seek  -- multiplier = 5.0
    let s1 := if many then show_status s "Fast seek" now
      else show_status s (if total_seek > 0 then "seek forward" else "seek backward") now
    let s2 := { s1 with pending_seek_operations := [], execute_pending_seek := false }
    match s2.cap with
    | none => (s2, [])
    | some c =>
        let current_time := c.pos_msec / 1000
        let new_time := max 0 (current_time + total_seek)
        let duration := (s2.frame_count : ℚ) / s2.fps
        let new_time2 := min new_time duration
        let s3 := { s2 with cap := some { c with pos_msec := new_time2 * 1000 } }
        if s3.audio_available then
          let current_video := file_at s3.video_files s3.current_index
          let r2 := play_audio s3 current_video new_time2
          (r2.1, [.set_position (new_time2 * 1000)] ++ r2.2)
        else (s3, [.set_position (new_time2 * 1000)])

/-- `change_playback_speed(delta)`: store the clamped speed
unconditionally; only when the stored speed moved by more than 0.01
show a status message and restart audio (when available and running). -/
def change_playback_speed (now : ℚ) (s : PlayerState) (delta : ℚ) :
    PlayerState × List PAction :=
  let old_speed := s.playback_speed
  let s := { s with playback_speed := max (1/10) (min 3 (s.playback_speed + delta)) }
  if |s.playback_speed - old_speed| > 1/100 then
    let s := show_status s "Speed" now
    if s.audio_available && s.audio_process.isSome then
      let current_video := file_at s.video_files s.current_index
      let current_time := match s.cap with
        | some c => c.pos_msec / 1000
        | none => 0
      let r1 := stop_audio s
      let r2 := play_audio r1.1 current_video current_time
      (r2.1, r1.2 ++ r2.2)
    else (s, [])
  else (s, [])

/-- `next_video`: `load_video((current_index + 1) % len(video_files))`. -/
def next_video (env : List (String × VideoFile)) (now : ℚ) (s : PlayerState) :
    PlayerState × Bool × List PAction :=
  load_video env now s (((s.current_index : ℤ) + 1) % (s.video_files.length : ℤ))

/-- `prev_video`: `load_video((current_index - 1) % len(video_files))`. -/
def prev_video (env : List (String × VideoFile)) (now : ℚ) (s : PlayerState) :
    PlayerState × Bool × List PAction :=
  load_video env now s (((s.current_index : ℤ) - 1) % (s.video_files.length : ℤ))

/-- The frame-pacing test of the main loop, line
`if time_since_last_frame >= (1.0 / (self.fps * self.playback_speed))`:
`none` models the `ZeroDivisionError` Python raises when
`fps * speed == 0` (the expression has no guard). -/
def should_advance_frame (last_frame_time now fps speed : ℚ) : Option Bool :=
  if fps * speed = 0 then none
  else some (decide (now - last_frame_time ≥ 1 / (fps * speed)))

/-- The `delay` local of `play()`:
`int(1000 / self.fps) if self.fps > 0 else 33`.  It is assigned but never
read by the pacing computation (`cv2.waitKey` is called with 1 or 0). -/
def play_delay (fps : ℚ) : ℤ :=
  if 0 < fps then ⌊(1000 / fps : ℚ)⌋ else 33

end VideoPlayer

/-- One `threading.Timer`: its identity and the delay it was created with. -/
structure DebounceTimer where
  id : ℕ
  delay : ℚ
deriving DecidableEq, Repr

/-- The timer runtime: the timers that are pending (started, not yet fired
and not cancelled) and a fresh-id counter. -/
structure Sched where
  live : List DebounceTimer
  next_id : ℕ
deriving DecidableEq, Repr

/-- `timer.cancel()`: a pending timer with this id no longer fires;
cancelling an already-fired or already-cancelled timer is a no-op. -/
def cancel_timer (ts : Sched) (tid : ℕ) : Sched :=
  { ts with live := ts.live.filter (fun t => t.id ≠ tid) }

namespace VideoPlayer

/-- `throttled_seek(seconds)`: append the delta to the pending list,
cancel the existing debounce timer if any, stop audio immediately, and
start a fresh timer of duration `throttle_delay` whose callback is
`set_execute_seek_flag`. -/
def throttled_seek (p : PlayerState × Sched) (seconds : ℚ) :
    (PlayerState × Sched) × List PAction :=
  let s := { p.1 with pending_seek_operations :=
      p.1.pending_seek_operations ++ [seconds] }
  let ts := match s.seek_throttle_timer with
    | some tid => cancel_timer p.2 tid
    | none => p.2
  let r := stop_audio s
  let t : DebounceTimer := ⟨ts.next_id, r.1.throttle_delay⟩
  let ts2 : Sched := { live := ts.live ++ [t], next_id := ts.next_id + 1 }
  (({ r.1 with seek_throttle_timer := some t.id }, ts2), r.2)

end VideoPlayer

/-- An event of the seek-coordination subsystem: a user seek request
(handled on the main thread), the expiry of a pending debounce timer
(the only work of the auxiliary timer thread), and one main-loop poll of
the `execute_pending_seek` flag. -/
inductive SeekEv where
  | request (delta : ℚ)
  | fire (tid : ℕ)
  | poll (now : ℚ)
deriving DecidableEq, Repr

/-- One step of the seek subsystem.  A `fire` of a pending timer runs
`set_execute_seek_flag` and retires the timer; a `poll` runs
`execute_throttled_seeks` exactly when the flag is up, as in the main
loop of `play()`. -/
def seek_step (p : PlayerState × Sched) (e : SeekEv) :
    (PlayerState × Sched) × List PAction :=
  match e with
  | .request d => VideoPlayer.throttled_seek p d
  | .fire tid =>
      if tid ∈ p.2.live.map DebounceTimer.id then
        ((VideoPlayer.set_execute_seek_flag p.1, cancel_timer p.2 tid), [])
      else (p, [])
  | .poll now =>
      if p.1.execute_pending_seek then
        let r := VideoPlayer.execute_throttled_seeks now p.1
        ((r.1, p.2), r.2)
      else (p, [])

/-- Run a whole event trace, accumulating the emitted actions. -/
def run_seek (p : PlayerState × Sched) (evs : List SeekEv) :
    (PlayerState × Sched) × List PAction :=
  match evs with
  | [] => (p, [])
  | e :: rest =>
      let r := seek_step p e
      let r2 := run_seek r.1 rest
      (r2.1, r.2 ++ r2.2)

/-- The timer-lifecycle invariant: at most one pending timer, every
pending timer is the one held in `seek_throttle_timer`, and it was
started with duration `throttle_delay`. -/
def seek_inv (p : PlayerState × Sched) : Prop :=
  p.2.live.length ≤ 1 ∧
    ∀ t ∈ p.2.live, p.1.seek_throttle_timer = some t.id ∧ t.delay = p.1.throttle_delay

instance (p : PlayerState × Sched) : Decidable (seek_inv p) := by
  unfold seek_inv; infer_instance

/-- Is this action a consolidated-seek application (a decoder position
write)? -/
def is_set_position : PAction → Bool
  | .set_position _ => true
  | _ => false

/-- Does this action start or stop an audio process? -/
def is_audio_action : PAction → Bool
  | .audio_kill _ => true
  | .audio_start _ _ => true
  | .set_position _ => false

/-- Does this action start an audio process? -/
def is_audio_start : PAction → Bool
  | .audio_start _ _ => true
  | _ => false

/-- The spec's clamp: `clamp(x, lo, hi) = max lo (min x hi)`. -/
def clamp (x lo hi : ℚ) : ℚ := max lo (min x hi)

/-- The position (in seconds) currently stored in the decoder capture,
`cap.get(CAP_PROP_POS_MSEC) / 1000.0` (0 when no capture is open). -/
def cap_pos (s : PlayerState) : ℚ :=
  match s.cap with
  | some c => c.pos_msec / 1000
  | none => 0

/-- A player mid-playback on a 100-second video (30 fps, 3000 frames),
position 0, audio available and running: the state of the spec's
worked scenarios. -/
def base_state : PlayerState :=
  { video_files := ["a.mp4", "b.mp4"], current_index := 0, is_playing := true,
    is_muted := false, timestamps := [], cap := some ⟨"a.mp4", 0, true⟩,
    fps := 30, frame_count := 3000, playback_speed := 1,
    status_text := "", status_start_time := 0, status_duration := 5/2,
    audio_process := some ⟨"a.mp4", 0, true⟩,
    pending_seek_operations := [], seek_throttle_timer := none,
    execute_pending_seek := false, audio_available := true, throttle_delay := 1/5 }

/-- `base_state` after three rapid `+10 s` requests have accumulated and
the debounce timer has fired. -/
def burst_state : PlayerState :=
  { base_state with pending_seek_operations := [10, 10, 10],
                    execute_pending_seek := true }

section Helpers

lemma cap_pos_of {s : PlayerState} {c : Cap} (h : s.cap = some c) :
    cap_pos s = c.pos_msec / 1000 := by
  simp [cap_pos, h]

lemma msec_roundtrip (y : ℚ) : y * 1000 / 1000 = y := by
  field_simp

/-- The source clamps below first and above second
(`min (max 0 x) D`); for a nonnegative duration this agrees with the
spec's `clamp(x, 0, D)`. -/
lemma min_max_eq_clamp (x D : ℚ) (hD : 0 ≤ D) :
    min (max 0 x) D = clamp x 0 D := by
  simp only [clamp, max_def, min_def]
  split_ifs <;> linarith

lemma clamp_nonneg (x D : ℚ) : 0 ≤ clamp x 0 D :=
  le_max_left 0 _

lemma clamp_le_duration (x D : ℚ) (hD : 0 ≤ D) : clamp x 0 D ≤ D :=
  max_le hD (min_le_right x D)

/-- `execute_throttled_seeks` with an empty pending list is a no-op. -/
lemma execute_throttled_seeks_empty (now : ℚ) (s : PlayerState)
    (h : s.pending_seek_operations = []) :
    VideoPlayer.execute_throttled_seeks now s = (s, []) := by
  simp [VideoPlayer.execute_throttled_seeks, h]

/-- The capture after a nonempty `execute_throttled_seeks`: the clamped
consolidated position, in milliseconds. -/
lemma execute_throttled_seeks_cap (now : ℚ) (s : PlayerState) (c : Cap)
    (hc : s.cap = some c) (hne : s.pending_seek_operations ≠ []) :
    (VideoPlayer.execute_throttled_seeks now s).1.cap =
      some { c with pos_msec :=
        (min (max 0 (c.pos_msec / 1000 +
            (if 3 ≤ s.pending_seek_operations.length
              then s.pending_seek_operations.sum * 5
              else s.pending_seek_operations.sum)))
          ((s.frame_count : ℚ) / s.fps) * 1000) } := by
  obtain ⟨vfs, ci, ip, im, ts, cap, fps, fc, ps, st, sst, sd, ap, pso, stt, eps, aa, td⟩ := s
  dsimp only at hc hne ⊢
  subst hc
  simp only [VideoPlayer.execute_throttled_seeks, List.isEmpty_eq_true, hne,
    if_false, VideoPlayer.show_status, VideoPlayer.play_audio,
    VideoPlayer.stop_audio]
  rcases ap with _ | ⟨pf, pp, pr⟩ <;> split_ifs <;> dsimp only <;>
    try (split_ifs <;> dsimp only)

/-- The actions of a nonempty `execute_throttled_seeks` contain exactly
one decoder position write. -/
lemma execute_throttled_seeks_one_write (now : ℚ) (s : PlayerState) (c : Cap)
    (hc : s.cap = some c) (hne : s.pending_seek_operations ≠ []) :
    ((VideoPlayer.execute_throttled_seeks now s).2.countP is_set_position) = 1 := by
  obtain ⟨vfs, ci, ip, im, ts, cap, fps, fc, ps, st, sst, sd, ap, pso, stt, eps, aa, td⟩ := s
  dsimp only at hc hne ⊢
  subst hc
  simp only [VideoPlayer.execute_throttled_seeks, List.isEmpty_eq_true, hne,
    if_false, VideoPlayer.show_status, VideoPlayer.play_audio,
    VideoPlayer.stop_audio]
  rcases ap with _ | ⟨pf, pp, pr⟩ <;> split_ifs <;> dsimp only <;>
    try (split_ifs <;> dsimp only)
  all_goals simp [is_set_position, List.countP_append, List.countP_cons]

/-- A nonempty `execute_throttled_seeks` clears the pending list and the
ready flag. -/
lemma execute_throttled_seeks_clears (now : ℚ) (s : PlayerState)
    (hne : s.pending_seek_operations ≠ []) :
    (VideoPlayer.execute_throttled_seeks now s).1.pending_seek_operations = [] ∧
      (VideoPlayer.execute_throttled_seeks now s).1.execute_pending_seek = false := by
  obtain ⟨vfs, ci, ip, im, ts, cap, fps, fc, ps, st, sst, sd, ap, pso, stt, eps, aa, td⟩ := s
  dsimp only at hne ⊢
  simp only [VideoPlayer.execute_throttled_seeks, List.isEmpty_eq_true, hne,
    if_false, VideoPlayer.show_status, VideoPlayer.play_audio,
    VideoPlayer.stop_audio]
  rcases cap with _ | ⟨cp, cm, co⟩ <;> rcases ap with _ | ⟨pf, pp, pr⟩ <;> split_ifs <;>
    first
    | exact ⟨rfl, rfl⟩
    | (cases pr <;> exact ⟨rfl, rfl⟩)

/-- The capture after `seek`: the clamped relative target, in
milliseconds. -/
lemma seek_cap (s : PlayerState) (c : Cap) (d : ℚ) (hc : s.cap = some c) :
    (VideoPlayer.seek s d).1.cap =
      some { c with pos_msec :=
        (min (max 0 (c.pos_msec / 1000 + d)) ((s.frame_count : ℚ) / s.fps) * 1000) } := by
  obtain ⟨vfs, ci, ip, im, ts, cap, fps, fc, ps, st, sst, sd, ap, pso, stt, eps, aa, td⟩ := s
  dsimp only at hc ⊢
  subst hc
  simp only [VideoPlayer.seek, VideoPlayer.play_audio, VideoPlayer.stop_audio]
  rcases ap with _ | ⟨pf, pp, pr⟩ <;> split_ifs <;> dsimp only <;>
    try (split_ifs <;> dsimp only)

/-- The capture after `seek_to_position`: the clamped absolute target, in
milliseconds. -/
lemma seek_to_position_cap (s : PlayerState) (c : Cap) (position : ℚ)
    (hc : s.cap = some c) :
    (VideoPlayer.seek_to_position s position).1.cap =
      some { c with pos_msec :=
        (max 0 (min position ((s.frame_count : ℚ) / s.fps)) * 1000) } := by
  obtain ⟨vfs, ci, ip, im, ts, cap, fps, fc, ps, st, sst, sd, ap, pso, stt, eps, aa, td⟩ := s
  dsimp only at hc ⊢
  subst hc
  simp only [VideoPlayer.seek_to_position, VideoPlayer.play_audio, VideoPlayer.stop_audio]
  rcases ap with _ | ⟨pf, pp, pr⟩ <;> split_ifs <;> dsimp only <;>
    try (split_ifs <;> dsimp only)

/-- The spec's clamp written with the lower bound applied last, as
`seek_to_position` computes it. -/
lemma max_min_eq_clamp (x D : ℚ) : max 0 (min x D) = clamp x 0 D := rfl

end Helpers

/-- C1: within one debounce window, `execute_throttled_seeks` applies
exactly one consolidated seek whose amount is the signed sum of the
pending deltas when there are fewer than 3 of them, and 5.0 times that
sum when there are 3 or more; it clears the pending list; an empty
pending list is a no-op; and in the worked scenario (three rapid +10 s
requests on a 100-second video at position 0) the aggregated amount is
150 s and the applied position is clamped to 100 s. -/
theorem C1_consolidated_seek (now : ℚ) (s : PlayerState) (c : Cap)
    (hc : s.cap = some c) (hne : s.pending_seek_operations ≠ [])
    (hfps : 0 < s.fps) (hfc : 0 ≤ s.frame_count) :
    ((VideoPlayer.execute_throttled_seeks now s).2.countP is_set_position = 1 ∧
      cap_pos (VideoPlayer.execute_throttled_seeks now s).1 =
        clamp (cap_pos s +
            (if 3 ≤ s.pending_seek_operations.length
              then s.pending_seek_operations.sum * 5
              else s.pending_seek_operations.sum))
          0 ((s.frame_count : ℚ) / s.fps) ∧
      (VideoPlayer.execute_throttled_seeks now s).1.pending_seek_operations = []) ∧
    (∀ s0 : PlayerState, s0.pending_seek_operations = [] →
      VideoPlayer.execute_throttled_seeks now s0 = (s0, [])) ∧
    ((if 3 ≤ burst_state.pending_seek_operations.length
        then burst_state.pending_seek_operations.sum * 5
        else burst_state.pending_seek_operations.sum) = 150 ∧
      cap_pos (VideoPlayer.execute_throttled_seeks 0 burst_state).1 = 100) := by
  have hdur : (0 : ℚ) ≤ (s.frame_count : ℚ) / s.fps :=
    div_nonneg (by exact_mod_cast hfc) hfps.le
  refine ⟨⟨execute_throttled_seeks_one_write now s c hc hne, ?_,
      (execute_throttled_seeks_clears now s hne).1⟩,
    fun s0 h0 => execute_throttled_seeks_empty now s0 h0,
    by norm_num [burst_state, base_state], ?_⟩
  · rw [cap_pos_of (execute_throttled_seeks_cap now s c hc hne), cap_pos_of hc,
      msec_roundtrip, min_max_eq_clamp _ _ hdur]
  · have h := execute_throttled_seeks_cap 0 burst_state ⟨"a.mp4", 0, true⟩ rfl
      (by simp [burst_state, base_state])
    rw [cap_pos_of h]
    norm_num [burst_state, base_state]

/-- Witness for C1 at the spec's burst scenario. -/
theorem C1_consolidated_seek_witness :
    cap_pos (VideoPlayer.execute_throttled_seeks 0 burst_state).1 =
      clamp (cap_pos burst_state +
          (if 3 ≤ burst_state.pending_seek_operations.length
            then burst_state.pending_seek_operations.sum * 5
            else burst_state.pending_seek_operations.sum))
        0 ((burst_state.frame_count : ℚ) / burst_state.fps) :=
  (C1_consolidated_seek 0 burst_state ⟨"a.mp4", 0, true⟩ rfl
    (by simp [burst_state, base_state]) (by norm_num [burst_state, base_state])
    (by norm_num [burst_state, base_state])).1.2.1

/-- C2: every position written to the decoder — by `seek`,
`seek_to_position` or `execute_throttled_seeks` — equals
`clamp(target, 0, duration)` with `duration = frame_count / fps`, hence
is never negative and never exceeds the duration; out-of-range targets
are silently clamped (the operations are total). -/
theorem C2_seek_position_clamped (s : PlayerState) (c : Cap) (d position now : ℚ)
    (hc : s.cap = some c) (hfps : 0 < s.fps) (hfc : 0 ≤ s.frame_count) :
    (cap_pos (VideoPlayer.seek s d).1 =
        clamp (cap_pos s + d) 0 ((s.frame_count : ℚ) / s.fps) ∧
      0 ≤ cap_pos (VideoPlayer.seek s d).1 ∧
      cap_pos (VideoPlayer.seek s d).1 ≤ (s.frame_count : ℚ) / s.fps) ∧
    (cap_pos (VideoPlayer.seek_to_position s position).1 =
        clamp position 0 ((s.frame_count : ℚ) / s.fps) ∧
      0 ≤ cap_pos (VideoPlayer.seek_to_position s position).1 ∧
      cap_pos (VideoPlayer.seek_to_position s position).1 ≤ (s.frame_count : ℚ) / s.fps) ∧
    (s.pending_seek_operations ≠ [] →
      cap_pos (VideoPlayer.execute_throttled_seeks now s).1 =
        clamp (cap_pos s +
            (if 3 ≤ s.pending_seek_operations.length
              then s.pending_seek_operations.sum * 5
              else s.pending_seek_operations.sum))
          0 ((s.frame_count : ℚ) / s.fps) ∧
      0 ≤ cap_pos (VideoPlayer.execute_throttled_seeks now s).1 ∧
      cap_pos (VideoPlayer.execute_throttled_seeks now s).1 ≤ (s.frame_count : ℚ) / s.fps) := by
  have hdur : (0 : ℚ) ≤ (s.frame_count : ℚ) / s.fps :=
    div_nonneg (by exact_mod_cast hfc) hfps.le
  have hseek : cap_pos (VideoPlayer.seek s d).1 =
      clamp (cap_pos s + d) 0 ((s.frame_count : ℚ) / s.fps) := by
    rw [cap_pos_of (seek_cap s c d hc), cap_pos_of hc, msec_roundtrip,
      min_max_eq_clamp _ _ hdur]
  have habs : cap_pos (VideoPlayer.seek_to_position s position).1 =
      clamp position 0 ((s.frame_count : ℚ) / s.fps) := by
    rw [cap_pos_of (seek_to_position_cap s c position hc), msec_roundtrip,
      max_min_eq_clamp]
  refine ⟨⟨hseek, ?_, ?_⟩, ⟨habs, ?_, ?_⟩, fun hne => ?_⟩
  · rw [hseek]; exact clamp_nonneg _ _
  · rw [hseek]; exact clamp_le_duration _ _ hdur
  · rw [habs]; exact clamp_nonneg _ _
  · rw [habs]; exact clamp_le_duration _ _ hdur
  · have hexec : cap_pos (VideoPlayer.execute_throttled_seeks now s).1 =
        clamp (cap_pos s +
            (if 3 ≤ s.pending_seek_operations.length
              then s.pending_seek_operations.sum * 5
              else s.pending_seek_operations.sum))
          0 ((s.frame_count : ℚ) / s.fps) := by
      rw [cap_pos_of (execute_throttled_seeks_cap now s c hc hne), cap_pos_of hc,
        msec_roundtrip, min_max_eq_clamp _ _ hdur]
    exact ⟨hexec, by rw [hexec]; exact clamp_nonneg _ _,
      by rw [hexec]; exact clamp_le_duration _ _ hdur⟩

/-- Witness for C2: a +200 s seek on the 100-second video lands exactly
at the clamped duration. -/
theorem C2_seek_position_clamped_witness :
    cap_pos (VideoPlayer.seek base_state 200).1 =
      clamp (cap_pos base_state + 200) 0
        ((base_state.frame_count : ℚ) / base_state.fps) :=
  (C2_seek_position_clamped base_state ⟨"a.mp4", 0, true⟩ 200 (-7) 0 rfl
    (by norm_num [base_state]) (by norm_num [base_state])).1.1

/-- C10: `load_video` with an out-of-range index (negative or at least
the number of files) returns `False`, performs no external action, and
returns the state entirely unchanged. -/
theorem C10_load_video_out_of_range (env : List (String × VideoFile)) (now : ℚ)
    (s : PlayerState) (index : ℤ)
    (h : ¬ (0 ≤ index ∧ index < (s.video_files.length : ℤ))) :
    VideoPlayer.load_video env now s index = (s, false, []) := by
  unfold VideoPlayer.load_video
  rw [if_neg h]

/-- Witness for C10 at index 5 (and an unmodified 2-file state). -/
theorem C10_load_video_out_of_range_witness :
    VideoPlayer.load_video [] 0 base_state 5 = (base_state, false, []) :=
  C10_load_video_out_of_range [] 0 base_state 5 (by norm_num [base_state])

section SpeedHelpers

/-- The stored speed after `change_playback_speed` is always the clamped
value (stored before the change-threshold test). -/
lemma change_speed_stores (now : ℚ) (s : PlayerState) (delta : ℚ) :
    (VideoPlayer.change_playback_speed now s delta).1.playback_speed =
      max (1/10) (min 3 (s.playback_speed + delta)) := by
  obtain ⟨vfs, ci, ip, im, ts, cap, fps, fc, ps, st, sst, sd, ap, pso, stt, eps, aa, td⟩ := s
  dsimp only
  simp only [VideoPlayer.change_playback_speed, VideoPlayer.show_status,
    VideoPlayer.play_audio, VideoPlayer.stop_audio]
  rcases ap with _ | ⟨pf, pp, pr⟩ <;> split_ifs <;> dsimp only <;>
    try (split_ifs <;> dsimp only)

/-- Below (or at) the 0.01 threshold, `change_playback_speed` only
stores the clamped speed: no status message, no audio action. -/
lemma change_speed_quiet (now : ℚ) (s : PlayerState) (delta : ℚ)
    (h : ¬ (1/100 < |max (1/10) (min 3 (s.playback_speed + delta)) - s.playback_speed|)) :
    VideoPlayer.change_playback_speed now s delta =
      ({ s with playback_speed := max (1/10) (min 3 (s.playback_speed + delta)) }, []) := by
  obtain ⟨vfs, ci, ip, im, ts, cap, fps, fc, ps, st, sst, sd, ap, pso, stt, eps, aa, td⟩ := s
  dsimp only at h ⊢
  simp only [VideoPlayer.change_playback_speed]
  split_ifs with h2 h3
  · exact absurd h2 h
  · exact absurd h2 h
  · rfl

/-- Above the 0.01 threshold, `change_playback_speed` shows a status
message and, when audio is available with a live process handle,
attempts an audio restart. -/
lemma change_speed_loud (now : ℚ) (s : PlayerState) (delta : ℚ)
    (h : 1/100 < |max (1/10) (min 3 (s.playback_speed + delta)) - s.playback_speed|) :
    (VideoPlayer.change_playback_speed now s delta).1.status_text = "Speed" ∧
    (VideoPlayer.change_playback_speed now s delta).1.status_start_time = now ∧
    (s.audio_available = true → s.audio_process.isSome = true →
      ((VideoPlayer.change_playback_speed now s delta).2.countP is_audio_start) = 1) := by
  obtain ⟨vfs, ci, ip, im, ts, cap, fps, fc, ps, st, sst, sd, ap, pso, stt, eps, aa, td⟩ := s
  dsimp only at h ⊢
  simp only [VideoPlayer.change_playback_speed, VideoPlayer.show_status,
    VideoPlayer.play_audio, VideoPlayer.stop_audio]
  rw [if_pos h]
  refine ⟨?_, ?_, fun ha hp => ?_⟩
  · rcases ap with _ | ⟨pf, pp, pr⟩ <;> split_ifs <;> dsimp only <;>
      try (split_ifs <;> dsimp only)
  · rcases ap with _ | ⟨pf, pp, pr⟩ <;> split_ifs <;> dsimp only <;>
      try (split_ifs <;> dsimp only)
  · try dsimp only at ha hp
    subst ha
    rcases ap with _ | ⟨pf, pp, pr⟩
    · simp at hp
    · cases pr <;> simp [is_audio_start, List.countP_append, List.countP_cons]

end SpeedHelpers

/-- The spec's clamp at the speed bounds, in the orientation the code
computes it (`max(0.1, min(3.0, x))`). -/
lemma clamp_speed_eq (x : ℚ) : clamp x (1/10) 3 = max (1/10) (min 3 x) := by
  rw [clamp, min_comm]

/-- C3 counterexample: a requested delta of 0.005 on stored speed 1.0
changes the stored speed (to 1.005) even though the magnitude of the
resulting change is below 0.01 — the store happens before the threshold
test; and at a change of exactly 0.01 no status message is shown, though
the claim requires one for changes of at least 0.01. -/
theorem C3_counterexample :
    (|(VideoPlayer.change_playback_speed 0 base_state (1/200)).1.playback_speed -
        base_state.playback_speed| < 1/100 ∧
      (VideoPlayer.change_playback_speed 0 base_state (1/200)).1.playback_speed ≠
        base_state.playback_speed) ∧
    (|(VideoPlayer.change_playback_speed 0 base_state (1/100)).1.playback_speed -
        base_state.playback_speed| = 1/100 ∧
      (VideoPlayer.change_playback_speed 0 base_state (1/100)).1.status_text = "") := by
  have q1 := change_speed_quiet 0 base_state (1/200)
    (by norm_num [base_state, max_def, min_def, abs_of_nonneg])
  have q2 := change_speed_quiet 0 base_state (1/100)
    (by norm_num [base_state, max_def, min_def, abs_of_nonneg])
  rw [q1, q2]
  norm_num [base_state, max_def, min_def, abs_of_nonneg]

/-- C3 (amended): `change_playback_speed` stores
`clamp(old_speed + delta, 0.1, 3.0)` unconditionally — the stored speed
is the clamped value even when the resulting change is below 0.01, not
bit-for-bit unchanged; when the magnitude of the change is at most 0.01
(not strictly below) no status message is shown, no audio action is
emitted and nothing else changes; when it strictly exceeds 0.01 a status
message is shown and an audio restart is attempted (one spawn) whenever
audio is available with a live handle.  Three successive +0.1 requests
from speed 1.0 yield speed 1.3 exactly, three status messages and three
audio restarts. -/
theorem C3_speed_change (now : ℚ) (s : PlayerState) (delta : ℚ) :
    ((VideoPlayer.change_playback_speed now s delta).1.playback_speed =
      clamp (s.playback_speed + delta) (1/10) 3) ∧
    (¬ (1/100 < |clamp (s.playback_speed + delta) (1/10) 3 - s.playback_speed|) →
      VideoPlayer.change_playback_speed now s delta =
        ({ s with playback_speed := clamp (s.playback_speed + delta) (1/10) 3 }, [])) ∧
    ((1/100 < |clamp (s.playback_speed + delta) (1/10) 3 - s.playback_speed|) →
      (VideoPlayer.change_playback_speed now s delta).1.status_text = "Speed" ∧
      (VideoPlayer.change_playback_speed now s delta).1.status_start_time = now ∧
      (s.audio_available = true → s.audio_process.isSome = true →
        ((VideoPlayer.change_playback_speed now s delta).2.countP is_audio_start) = 1)) ∧
    ((VideoPlayer.change_playback_speed 3
        (VideoPlayer.change_playback_speed 2
          (VideoPlayer.change_playback_speed 1 base_state (1/10)).1
          (1/10)).1 (1/10)).1.playback_speed = 13/10 ∧
      (VideoPlayer.change_playback_speed 1 base_state (1/10)).1.status_text = "Speed" ∧
      (VideoPlayer.change_playback_speed 2
        (VideoPlayer.change_playback_speed 1 base_state (1/10)).1
        (1/10)).1.status_start_time = 2 ∧
      (VideoPlayer.change_playback_speed 3
        (VideoPlayer.change_playback_speed 2
          (VideoPlayer.change_playback_speed 1 base_state (1/10)).1
          (1/10)).1 (1/10)).1.status_start_time = 3 ∧
      ((VideoPlayer.change_playback_speed 1 base_state (1/10)).2.countP is_audio_start = 1 ∧
        ((VideoPlayer.change_playback_speed 2
          (VideoPlayer.change_playback_speed 1 base_state (1/10)).1
          (1/10)).2.countP is_audio_start = 1) ∧
        ((VideoPlayer.change_playback_speed 3
          (VideoPlayer.change_playback_speed 2
            (VideoPlayer.change_playback_speed 1 base_state (1/10)).1
            (1/10)).1 (1/10)).2.countP is_audio_start = 1))) := by
  have h1 : VideoPlayer.change_playback_speed 1 base_state (1/10) =
      ({ base_state with
          playback_speed := (11/10 : ℚ),
          status_text := "Speed",
          status_start_time := 1,
          audio_process := some ⟨"a.mp4", 0, true⟩ },
        [.audio_kill "a.mp4", .audio_start "a.mp4" 0]) := by
    norm_num [VideoPlayer.change_playback_speed, VideoPlayer.show_status,
      VideoPlayer.play_audio, VideoPlayer.stop_audio, base_state, max_def, min_def,
      abs_of_nonneg, file_at]
  have h2 : VideoPlayer.change_playback_speed 2
      ({ base_state with
          playback_speed := (11/10 : ℚ),
          status_text := "Speed",
          status_start_time := 1,
          audio_process := some ⟨"a.mp4", 0, true⟩ } : PlayerState) (1/10) =
      ({ base_state with
          playback_speed := (6/5 : ℚ),
          status_text := "Speed",
          status_start_time := 2,
          audio_process := some ⟨"a.mp4", 0, true⟩ },
        [.audio_kill "a.mp4", .audio_start "a.mp4" 0]) := by
    norm_num [VideoPlayer.change_playback_speed, VideoPlayer.show_status,
      VideoPlayer.play_audio, VideoPlayer.stop_audio, base_state, max_def, min_def,
      abs_of_nonneg, file_at]
  have h3 : VideoPlayer.change_playback_speed 3
      ({ base_state with
          playback_speed := (6/5 : ℚ),
          status_text := "Speed",
          status_start_time := 2,
          audio_process := some ⟨"a.mp4", 0, true⟩ } : PlayerState) (1/10) =
      ({ base_state with
          playback_speed := (13/10 : ℚ),
          status_text := "Speed",
          status_start_time := 3,
          audio_process := some ⟨"a.mp4", 0, true⟩ },
        [.audio_kill "a.mp4", .audio_start "a.mp4" 0]) := by
    norm_num [VideoPlayer.change_playback_speed, VideoPlayer.show_status,
      VideoPlayer.play_audio, VideoPlayer.stop_audio, base_state, max_def, min_def,
      abs_of_nonneg, file_at]
  refine ⟨(change_speed_stores now s delta).trans (clamp_speed_eq _).symm,
    fun h => ?_, fun h => ?_, ?_⟩
  · rw [clamp_speed_eq] at h ⊢
    exact change_speed_quiet now s delta h
  · rw [clamp_speed_eq] at h
    exact change_speed_loud now s delta h
  · rw [h1, h2, h3]
    norm_num [is_audio_start, List.countP_cons]

/-- Witness for C3: the quiet branch discharged at delta 0.005 on speed
1.0. -/
theorem C3_speed_change_witness :
    VideoPlayer.change_playback_speed 0 base_state (1/200) =
      ({ base_state with
          playback_speed := clamp (base_state.playback_speed + 1/200) (1/10) 3 }, []) :=
  (C3_speed_change 0 base_state (1/200)).2.1
    (by norm_num [base_state, clamp, max_def, min_def, abs_of_nonneg])

/-- C4 counterexample: with the 2.5 s display duration, a read at
exactly T + 2.5 still reports the message present (with opacity 0) and
does not clear the stored text — expiry requires `elapsed > duration`
strictly, so "absent for every t at or after T+D" fails at t = T+D. -/
theorem C4_counterexample :
    (VideoPlayer.draw_status_overlay
        { base_state with status_text := "Playing" } (5/2)).2 =
      some ("Playing", 0) ∧
    (VideoPlayer.draw_status_overlay
        { base_state with status_text := "Playing" } (5/2)).1.status_text =
      "Playing" := by
  have hs : ¬ (("Playing" : String) = "") := by decide
  constructor <;>
    (simp only [VideoPlayer.draw_status_overlay, base_state]
     rw [if_neg hs]
     norm_num)

/-- C4 (amended): a message shown at time T with duration 2.5 s reads
back present with opacity exactly 1 on [T, T+2), present with opacity
`(T + 2.5 - t) * 2` — linearly and strictly decreasing from 1 to 0 — on
[T+2, T+2.5], still present (opacity 0, text kept) at exactly T+2.5, and
absent with the stored text cleared on the first read strictly after
T+2.5 (lazy expiry); `show_status` unconditionally replaces the text and
resets the start time. -/
theorem C4_status_overlay (s : PlayerState) (T : ℚ)
    (htext : s.status_text ≠ "") (hT : s.status_start_time = T)
    (hdur : s.status_duration = 5/2) :
    (∀ t, T ≤ t → t < T + 2 →
      VideoPlayer.draw_status_overlay s t = (s, some (s.status_text, 1))) ∧
    (∀ t, T + 2 ≤ t → t ≤ T + 5/2 →
      (VideoPlayer.draw_status_overlay s t).2 =
        some (s.status_text, (T + 5/2 - t) * 2) ∧
      (VideoPlayer.draw_status_overlay s t).1 = s) ∧
    (∀ t1 t2 a1 a2, T + 2 ≤ t1 → t1 < t2 → t2 ≤ T + 5/2 →
      (VideoPlayer.draw_status_overlay s t1).2 = some (s.status_text, a1) →
      (VideoPlayer.draw_status_overlay s t2).2 = some (s.status_text, a2) →
      a2 < a1) ∧
    (∀ t, T + 5/2 < t →
      VideoPlayer.draw_status_overlay s t = ({ s with status_text := "" }, none)) ∧
    (∀ s0 : PlayerState, ∀ msg : String, ∀ t0 : ℚ,
      VideoPlayer.show_status s0 msg t0 =
        { s0 with status_text := msg, status_start_time := t0 }) := by
  have key : ∀ t, T + 2 ≤ t → t ≤ T + 5/2 →
      VideoPlayer.draw_status_overlay s t = (s, some (s.status_text, (T + 5/2 - t) * 2)) := by
    intro t h1 h2
    simp only [VideoPlayer.draw_status_overlay, hT, hdur]
    rw [if_neg htext, if_neg (by linarith : ¬ t - T > 5/2)]
    rcases eq_or_lt_of_le h1 with he | hlt
    · rw [if_neg (by rw [← he]; norm_num : ¬ t - T > 5/2 - 1/2)]
      have : (T + 5/2 - t) * 2 = 1 := by rw [← he]; ring
      rw [this]
    · rw [if_pos (by norm_num; linarith : t - T > 5/2 - 1/2)]
      have : 1 - (t - T - (5/2 - 1/2)) / (1/2) = (T + 5/2 - t) * 2 := by ring
      rw [this]
  refine ⟨fun t h1 h2 => ?_, fun t h1 h2 => ⟨by rw [key t h1 h2], by rw [key t h1 h2]⟩,
    fun t1 t2 a1 a2 h1 h12 h2 e1 e2 => ?_, fun t h => ?_, fun s0 msg t0 => rfl⟩
  · simp only [VideoPlayer.draw_status_overlay, hT, hdur]
    rw [if_neg htext, if_neg (by linarith : ¬ t - T > 5/2),
      if_neg (by norm_num; linarith : ¬ t - T > 5/2 - 1/2)]
  · rw [key t1 h1 (by linarith)] at e1
    rw [key t2 (by linarith) h2] at e2
    have ha1 : a1 = (T + 5/2 - t1) * 2 := by
      have := (Option.some.injEq _ _).mp e1.symm
      exact ((Prod.mk.injEq _ _ _ _).mp this).2
    have ha2 : a2 = (T + 5/2 - t2) * 2 := by
      have := (Option.some.injEq _ _).mp e2.symm
      exact ((Prod.mk.injEq _ _ _ _).mp this).2
    rw [ha1, ha2]
    linarith
  · simp only [VideoPlayer.draw_status_overlay, hT, hdur]
    rw [if_neg htext, if_pos (by linarith : t - T > 5/2)]

/-- Witness for C4: the fresh message "Playing" shown at time 0 reads
back fully opaque at time 1. -/
theorem C4_status_overlay_witness :
    VideoPlayer.draw_status_overlay
        ({ base_state with status_text := "Playing" } : PlayerState) 1 =
      ({ base_state with status_text := "Playing" },
        some (({ base_state with status_text := "Playing" } : PlayerState).status_text, 1)) :=
  (C4_status_overlay { base_state with status_text := "Playing" } 0
    (by simp [base_state]) rfl rfl).1 1 (by norm_num) (by norm_num)

/-- C5 counterexample: at fps = 0 the pacing computation of the main
loop divides by zero (modelled as `none`) instead of substituting a
33 ms interval — the 33 ms default is only ever computed into the
separate `delay` variable, which the pacing comparison never reads. -/
theorem C5_counterexample :
    VideoPlayer.should_advance_frame 0 1 0 1 = none ∧
      VideoPlayer.play_delay 0 = 33 := by
  constructor
  · simp [VideoPlayer.should_advance_frame]
  · norm_num [VideoPlayer.play_delay]

/-- C5 (amended): the frame pacer advances exactly when
`now - lastFrameTime >= 1 / (fps * speed)` with the current speed,
provided `fps * speed` is nonzero; the pacing computation fails with a
division by zero precisely when `fps * speed = 0` (no default is
substituted there); the 33 ms default exists only in the `delay`
variable, which is set to 33 whenever `fps <= 0` and to
`int(1000 / fps)` otherwise but never enters the pacing comparison. -/
theorem C5_frame_pacing (last now fps speed : ℚ) :
    (fps * speed ≠ 0 →
      (VideoPlayer.should_advance_frame last now fps speed = some true ↔
        now - last ≥ 1 / (fps * speed))) ∧
    (VideoPlayer.should_advance_frame last now fps speed = none ↔ fps * speed = 0) ∧
    (fps ≤ 0 → VideoPlayer.play_delay fps = 33) ∧
    (0 < fps → VideoPlayer.play_delay fps = ⌊(1000 / fps : ℚ)⌋) := by
  refine ⟨fun h => ?_, ?_, fun h => ?_, fun h => ?_⟩
  · rw [VideoPlayer.should_advance_frame, if_neg h]
    simp [decide_eq_true_eq]
  · rw [VideoPlayer.should_advance_frame]
    split_ifs with h
    · simp [h]
    · simp [h]
  · rw [VideoPlayer.play_delay, if_neg (not_lt.mpr h)]
  · rw [VideoPlayer.play_delay, if_pos h]

/-- Witness for C5: at 30 fps and speed 1, one full second elapsed
advances a frame. -/
theorem C5_frame_pacing_witness :
    VideoPlayer.should_advance_frame 0 1 30 1 = some true :=
  ((C5_frame_pacing 0 1 30 1).1 (by norm_num)).mpr (by norm_num)

/-- `load_video` when the target index is in range but the decoder
cannot open the file: returns `False`, yet has already saved the old
file's timestamp, stopped audio, switched `current_index` and replaced
the old capture by the unopened one. -/
lemma load_video_open_fail (env : List (String × VideoFile)) (now : ℚ)
    (s : PlayerState) (index : ℤ) (c : Cap)
    (hc : s.cap = some c)
    (hidx : 0 ≤ index ∧ index < (s.video_files.length : ℤ))
    (hfind : find_video env (file_at s.video_files index.toNat) = none) :
    VideoPlayer.load_video env now s index =
      ({ s with
          timestamps := (ts_set s.timestamps
            (file_at s.video_files s.current_index) (c.pos_msec / 1000)),
          audio_process := none,
          current_index := index.toNat,
          cap := some ⟨file_at s.video_files index.toNat, 0, false⟩ },
        false,
        (VideoPlayer.stop_audio s).2) := by
  obtain ⟨vfs, ci, ip, im, ts, cap, fps, fc, ps, st, sst, sd, ap, pso, stt, eps, aa, td⟩ := s
  dsimp only at hc hidx hfind ⊢
  subst hc
  simp only [VideoPlayer.load_video, VideoPlayer.stop_audio]
  rw [if_pos hidx]
  rcases ap with _ | ⟨pf, pp, pr⟩
  · rw [hfind]
  · cases pr
    · simp only [if_neg (show ¬(false = true) by decide)]
      rw [hfind]
    · simp only [if_pos (show (true = true) from rfl), if_true]
      rw [hfind]

/-- C6 counterexample: with only "a.mp4" openable, `load_video 1` (for
"b.mp4") returns False but the controller is not in its previous state:
the current index moved to 1, the audio process was stopped, and the
previous capture was replaced by the unopened one. -/
theorem C6_counterexample :
    ((VideoPlayer.load_video [("a.mp4", ⟨30, 3000⟩)] 0 base_state 1).2.1 = false) ∧
    ((VideoPlayer.load_video [("a.mp4", ⟨30, 3000⟩)] 0 base_state 1).1.current_index = 1 ∧
      base_state.current_index = 0) ∧
    ((VideoPlayer.load_video [("a.mp4", ⟨30, 3000⟩)] 0 base_state 1).1.audio_process = none ∧
      base_state.audio_process = some ⟨"a.mp4", 0, true⟩) ∧
    ((VideoPlayer.load_video [("a.mp4", ⟨30, 3000⟩)] 0 base_state 1).1.cap =
        some ⟨"b.mp4", 0, false⟩ ∧
      base_state.cap = some ⟨"a.mp4", 0, true⟩) := by
  have h := load_video_open_fail [("a.mp4", ⟨30, 3000⟩)] 0 base_state 1
    ⟨"a.mp4", 0, true⟩ rfl (by norm_num [base_state]) rfl
  rw [h]
  refine ⟨rfl, ⟨rfl, rfl⟩, ⟨rfl, rfl⟩, ⟨?_, rfl⟩⟩
  rfl

/-- C6 (amended): when `load_video` is called with an in-range index but
the decoder fails to open the target, the failure is non-fatal (returns
False, fps / frame count / status untouched), but the controller is NOT
left in its previous state: the old file's position is saved into the
timestamp store, audio is stopped (handle cleared, kill emitted for a
running process), `current_index` is set to the new index, and the old
capture is released and replaced by the unopened capture. -/
theorem C6_open_failure (env : List (String × VideoFile)) (now : ℚ)
    (s : PlayerState) (index : ℤ) (c : Cap)
    (hc : s.cap = some c)
    (hidx : 0 ≤ index ∧ index < (s.video_files.length : ℤ))
    (hfind : find_video env (file_at s.video_files index.toNat) = none) :
    ((VideoPlayer.load_video env now s index).2.1 = false ∧
      (VideoPlayer.load_video env now s index).2.2 = (VideoPlayer.stop_audio s).2) ∧
    (VideoPlayer.load_video env now s index).1.current_index = index.toNat ∧
    (VideoPlayer.load_video env now s index).1.cap =
      some ⟨file_at s.video_files index.toNat, 0, false⟩ ∧
    (VideoPlayer.load_video env now s index).1.audio_process = none ∧
    (VideoPlayer.load_video env now s index).1.timestamps =
      ts_set s.timestamps (file_at s.video_files s.current_index) (c.pos_msec / 1000) ∧
    (VideoPlayer.load_video env now s index).1.fps = s.fps ∧
    (VideoPlayer.load_video env now s index).1.frame_count = s.frame_count ∧
    (VideoPlayer.load_video env now s index).1.status_text = s.status_text := by
  rw [load_video_open_fail env now s index c hc hidx hfind]
  exact ⟨⟨rfl, rfl⟩, rfl, rfl, rfl, rfl, rfl, rfl, rfl⟩

/-- Witness for C6 (amended) at the concrete two-file player. -/
theorem C6_open_failure_witness :
    (VideoPlayer.load_video [("a.mp4", ⟨30, 3000⟩)] 0 base_state 1).2.1 = false ∧
      (VideoPlayer.load_video [("a.mp4", ⟨30, 3000⟩)] 0 base_state 1).2.2 =
        (VideoPlayer.stop_audio base_state).2 :=
  (C6_open_failure [("a.mp4", ⟨30, 3000⟩)] 0 base_state 1 ⟨"a.mp4", 0, true⟩ rfl
    (by norm_num [base_state]) rfl).1

set_option maxHeartbeats 2000000 in
/-- `load_video` when the target index is in range and the decoder opens
the file: the full resulting state and action trace. -/
lemma load_video_success (env : List (String × VideoFile)) (now : ℚ)
    (s : PlayerState) (index : ℤ) (c : Cap) (vf : VideoFile)
    (hc : s.cap = some c)
    (hidx : 0 ≤ index ∧ index < (s.video_files.length : ℤ))
    (hfind : find_video env (file_at s.video_files index.toNat) = some vf) :
    VideoPlayer.load_video env now s index =
      (let path2 := file_at s.video_files index.toNat
       let ts2 := ts_set s.timestamps
         (file_at s.video_files s.current_index) (c.pos_msec / 1000)
       let saved := ts_get ts2 path2
       ({ s with
          timestamps := ts2,
          current_index := index.toNat,
          cap := some ⟨path2, (if saved > 0 then saved * 1000 else 0), true⟩,
          fps := vf.fps,
          frame_count := vf.frame_count,
          audio_process :=
            (if s.audio_available then some ⟨path2, saved, true⟩ else none),
          status_text := ("Playing: " ++ path2),
          status_start_time := now },
        true,
        (VideoPlayer.stop_audio s).2 ++
          (if s.audio_available then [.audio_start path2 saved] else []))) := by
  obtain ⟨vfs, ci, ip, im, ts, cap, fps, fc, ps, st, sst, sd, ap, pso, stt, eps, aa, td⟩ := s
  dsimp only at hc hidx hfind ⊢
  subst hc
  simp only [VideoPlayer.load_video, VideoPlayer.stop_audio,
    VideoPlayer.play_audio, VideoPlayer.show_status]
  rw [if_pos hidx]
  rcases ap with _ | ⟨pf, pp, pr⟩
  · rw [hfind]
    split_ifs <;> rfl
  · cases pr
    · simp only [if_neg (show ¬(false = true) by decide)]
      rw [hfind]
      split_ifs <;> rfl
    · simp only [if_pos (show (true = true) from rfl), if_true]
      rw [hfind]
      split_ifs <;> rfl

/-- `(i + 1) % n` computed by `next_video` over ℤ, as a ℕ index. -/
lemma next_index_toNat (ci n : ℕ) (hn : 0 < n) :
    (((ci : ℤ) + 1) % (n : ℤ)).toNat = (ci + 1) % n := by
  have h : ((ci : ℤ) + 1) % (n : ℤ) = (((ci + 1) % n : ℕ) : ℤ) := by
    rw [Int.natCast_mod]
    push_cast
    ring_nf
  rw [h, Int.toNat_natCast]

/-- `(i - 1) % n` computed by `prev_video` over ℤ (Python-style
nonnegative modulo), as a ℕ index. -/
lemma prev_index_toNat (ci n : ℕ) (hn : 0 < n) :
    (((ci : ℤ) - 1) % (n : ℤ)).toNat = (ci + n - 1) % n := by
  have e1 : ((ci + n - 1 : ℕ) : ℤ) = (ci : ℤ) - 1 + n := by
    rw [Nat.cast_sub (by omega : 1 ≤ ci + n)]
    push_cast
    ring
  have h : ((ci : ℤ) - 1) % (n : ℤ) = (((ci + n - 1) % n : ℕ) : ℤ) := by
    rw [Int.natCast_mod, e1,
      show ((ci : ℤ) - 1 + n) = ((ci : ℤ) - 1 + n * 1) by ring,
      Int.add_mul_emod_self_left]
  rw [h, Int.toNat_natCast]

set_option maxHeartbeats 2000000 in
/-- C7: `next_video` switches to index `(i+1) mod n` and `prev_video` to
`(i-1) mod n` (wrapping: next from the last index reaches 0, prev from 0
reaches the last index); every such switch — in either direction —
persists the current position into the timestamp store keyed by the
current file path, stops the running audio, loads the new file, restores
its saved position exactly when one is stored and positive, and restarts
audio at that saved position. -/
theorem C7_file_switch (env : List (String × VideoFile)) (now : ℚ)
    (s : PlayerState) (c : Cap) (af : String) (ap0 : ℚ) (vfn vfp : VideoFile)
    (hn : 0 < s.video_files.length)
    (hc : s.cap = some c)
    (hap : s.audio_process = some ⟨af, ap0, true⟩)
    (hav : s.audio_available = true)
    (hfn : find_video env
      (file_at s.video_files ((s.current_index + 1) % s.video_files.length)) =
      some vfn)
    (hfp : find_video env
      (file_at s.video_files
        ((s.current_index + s.video_files.length - 1) % s.video_files.length)) =
      some vfp) :
    ((VideoPlayer.next_video env now s).1.current_index =
        (s.current_index + 1) % s.video_files.length ∧
      (s.current_index = s.video_files.length - 1 →
        (VideoPlayer.next_video env now s).1.current_index = 0) ∧
      (VideoPlayer.prev_video env now s).1.current_index =
        (s.current_index + s.video_files.length - 1) % s.video_files.length ∧
      (s.current_index = 0 →
        (VideoPlayer.prev_video env now s).1.current_index =
          s.video_files.length - 1)) ∧
    (VideoPlayer.next_video env now s).1.timestamps =
      ts_set s.timestamps (file_at s.video_files s.current_index)
        (c.pos_msec / 1000) ∧
    PAction.audio_kill af ∈ (VideoPlayer.next_video env now s).2.2 ∧
    ((VideoPlayer.next_video env now s).2.1 = true ∧
      (VideoPlayer.next_video env now s).1.fps = vfn.fps ∧
      (VideoPlayer.next_video env now s).1.frame_count = vfn.frame_count) ∧
    (VideoPlayer.next_video env now s).1.cap =
      some ⟨file_at s.video_files ((s.current_index + 1) % s.video_files.length),
        (if ts_get (ts_set s.timestamps (file_at s.video_files s.current_index)
              (c.pos_msec / 1000))
            (file_at s.video_files
              ((s.current_index + 1) % s.video_files.length)) > 0
          then ts_get (ts_set s.timestamps (file_at s.video_files s.current_index)
              (c.pos_msec / 1000))
            (file_at s.video_files
              ((s.current_index + 1) % s.video_files.length)) * 1000
          else 0), true⟩ ∧
    ((VideoPlayer.next_video env now s).1.audio_process =
        some ⟨file_at s.video_files ((s.current_index + 1) % s.video_files.length),
          ts_get (ts_set s.timestamps (file_at s.video_files s.current_index)
              (c.pos_msec / 1000))
            (file_at s.video_files ((s.current_index + 1) % s.video_files.length)),
          true⟩ ∧
      PAction.audio_start
          (file_at s.video_files ((s.current_index + 1) % s.video_files.length))
          (ts_get (ts_set s.timestamps (file_at s.video_files s.current_index)
              (c.pos_msec / 1000))
            (file_at s.video_files ((s.current_index + 1) % s.video_files.length))) ∈
        (VideoPlayer.next_video env now s).2.2) ∧
    (VideoPlayer.prev_video env now s).1.timestamps =
      ts_set s.timestamps (file_at s.video_files s.current_index)
        (c.pos_msec / 1000) ∧
    PAction.audio_kill af ∈ (VideoPlayer.prev_video env now s).2.2 ∧
    ((VideoPlayer.prev_video env now s).2.1 = true ∧
      (VideoPlayer.prev_video env now s).1.fps = vfp.fps ∧
      (VideoPlayer.prev_video env now s).1.frame_count = vfp.frame_count) ∧
    (VideoPlayer.prev_video env now s).1.cap =
      some ⟨file_at s.video_files
          ((s.current_index + s.video_files.length - 1) % s.video_files.length),
        (if ts_get (ts_set s.timestamps (file_at s.video_files s.current_index)
              (c.pos_msec / 1000))
            (file_at s.video_files
              ((s.current_index + s.video_files.length - 1) %
                s.video_files.length)) > 0
          then ts_get (ts_set s.timestamps (file_at s.video_files s.current_index)
              (c.pos_msec / 1000))
            (file_at s.video_files
              ((s.current_index + s.video_files.length - 1) %
                s.video_files.length)) * 1000
          else 0), true⟩ ∧
    ((VideoPlayer.prev_video env now s).1.audio_process =
        some ⟨file_at s.video_files
            ((s.current_index + s.video_files.length - 1) % s.video_files.length),
          ts_get (ts_set s.timestamps (file_at s.video_files s.current_index)
              (c.pos_msec / 1000))
            (file_at s.video_files
              ((s.current_index + s.video_files.length - 1) % s.video_files.length)),
          true⟩ ∧
      PAction.audio_start
          (file_at s.video_files
            ((s.current_index + s.video_files.length - 1) % s.video_files.length))
          (ts_get (ts_set s.timestamps (file_at s.video_files s.current_index)
              (c.pos_msec / 1000))
            (file_at s.video_files
              ((s.current_index + s.video_files.length - 1) % s.video_files.length))) ∈
        (VideoPlayer.prev_video env now s).2.2) := by
  have hnz : (s.video_files.length : ℤ) ≠ 0 := by
    exact_mod_cast hn.ne'
  have hpos : (0 : ℤ) < (s.video_files.length : ℤ) := by exact_mod_cast hn
  have htn := next_index_toNat s.current_index s.video_files.length hn
  have htp := prev_index_toNat s.current_index s.video_files.length hn
  have hN := load_video_success env now s
    (((s.current_index : ℤ) + 1) % (s.video_files.length : ℤ)) c vfn hc
    ⟨Int.emod_nonneg _ hnz, Int.emod_lt_of_pos _ hpos⟩ (by rw [htn]; exact hfn)
  have hP := load_video_success env now s
    (((s.current_index : ℤ) - 1) % (s.video_files.length : ℤ)) c vfp hc
    ⟨Int.emod_nonneg _ hnz, Int.emod_lt_of_pos _ hpos⟩ (by rw [htp]; exact hfp)
  have hstop : (VideoPlayer.stop_audio s).2 = [PAction.audio_kill af] := by
    simp [VideoPlayer.stop_audio, hap]
  simp only [VideoPlayer.next_video, VideoPlayer.prev_video]
  rw [hN, hP]
  dsimp only
  rw [htn, htp, hav, hstop]
  simp only [if_pos (show (true = true) from rfl), if_true]
  refine ⟨⟨trivial, fun h => ?_, trivial, fun h => ?_⟩, trivial, ?_,
    ⟨trivial, trivial, trivial⟩, trivial, ⟨trivial, ?_⟩, trivial, ?_,
    ⟨trivial, trivial, trivial⟩, trivial, ⟨trivial, ?_⟩⟩
  · rw [h, Nat.sub_add_cancel hn, Nat.mod_self]
  · rw [h, Nat.zero_add, Nat.mod_eq_of_lt (by omega)]
  · simp
  · simp
  · simp
  · simp

/-- Witness for C7 on the two-file player: next from index 0 reaches
index 1, prev from index 0 wraps to index 1 (the last index), and the
prev switch persists the current position into the timestamp store. -/
theorem C7_file_switch_witness :
    (VideoPlayer.next_video [("a.mp4", ⟨30, 3000⟩), ("b.mp4", ⟨25, 250⟩)]
        0 base_state).1.current_index =
      (base_state.current_index + 1) % base_state.video_files.length ∧
    (VideoPlayer.prev_video [("a.mp4", ⟨30, 3000⟩), ("b.mp4", ⟨25, 250⟩)]
        0 base_state).1.current_index =
      (base_state.current_index + base_state.video_files.length - 1) %
        base_state.video_files.length ∧
    (VideoPlayer.prev_video [("a.mp4", ⟨30, 3000⟩), ("b.mp4", ⟨25, 250⟩)]
        0 base_state).1.timestamps =
      ts_set base_state.timestamps
        (file_at base_state.video_files base_state.current_index) (0 / 1000) := by
  have h := C7_file_switch [("a.mp4", ⟨30, 3000⟩), ("b.mp4", ⟨25, 250⟩)] 0
    base_state ⟨"a.mp4", 0, true⟩ "a.mp4" 0 ⟨25, 250⟩ ⟨25, 250⟩
    (by norm_num [base_state]) rfl rfl rfl rfl rfl
  exact ⟨h.1.1, h.1.2.2.1, h.2.2.2.2.2.2.1⟩

/-- `load_video` with audio disabled and no process: no audio action is
ever emitted and the disabled state persists. -/
lemma load_video_no_audio (env : List (String × VideoFile)) (now : ℚ)
    (s : PlayerState) (idx : ℤ)
    (hA : s.audio_available = false) (hP : s.audio_process = none) :
    (VideoPlayer.load_video env now s idx).2.2 = [] ∧
    (VideoPlayer.load_video env now s idx).1.audio_process = none ∧
    (VideoPlayer.load_video env now s idx).1.audio_available = false := by
  obtain ⟨vfs, ci, ip, im, ts, cap, fps, fc, ps, st, sst, sd, ap, pso, stt, eps, aa, td⟩ := s
  dsimp only at hA hP
  subst hA
  subst hP
  simp only [VideoPlayer.load_video, VideoPlayer.stop_audio,
    VideoPlayer.play_audio, VideoPlayer.show_status]
  by_cases h : 0 ≤ idx ∧ idx < (vfs.length : ℤ)
  · rw [if_pos h]
    rcases cap with _ | c <;> dsimp only <;> split <;> (try split_ifs) <;>
      first
      | exact ⟨rfl, rfl, rfl⟩
      | exact False.elim ‹False›
      | exact absurd ‹false = true› (by decide)
  · rw [if_neg h]
    exact ⟨rfl, rfl, rfl⟩


/-- A player whose startup ffplay probe failed: audio disabled for the
session and no audio process was ever started. -/
def silent_state : PlayerState :=
  { base_state with audio_available := false, audio_process := none }

set_option maxHeartbeats 1000000 in
/-- C9: when the ffplay availability probe failed (audio_available is
false and hence no process was ever started), every seek, throttled
seek, consolidated seek, speed change, mute-toggle restart, and file
switch completes without starting or stopping any audio process, and
`play_audio` is a no-op; the disabled flag and the absent process handle
persist across every operation. -/
theorem C9_audio_unavailable (s : PlayerState)
    (hA : s.audio_available = false) (hP : s.audio_process = none) :
    (∀ f t, VideoPlayer.play_audio s f t = (s, [])) ∧
    (VideoPlayer.stop_audio s = (s, [])) ∧
    (∀ d, (VideoPlayer.seek s d).2.countP is_audio_action = 0 ∧
      (VideoPlayer.seek s d).1.audio_process = none ∧
      (VideoPlayer.seek s d).1.audio_available = false) ∧
    (∀ pos, (VideoPlayer.seek_to_position s pos).2.countP is_audio_action = 0 ∧
      (VideoPlayer.seek_to_position s pos).1.audio_process = none ∧
      (VideoPlayer.seek_to_position s pos).1.audio_available = false) ∧
    (∀ now, (VideoPlayer.execute_throttled_seeks now s).2.countP is_audio_action = 0 ∧
      (VideoPlayer.execute_throttled_seeks now s).1.audio_process = none ∧
      (VideoPlayer.execute_throttled_seeks now s).1.audio_available = false) ∧
    (∀ now delta,
      (VideoPlayer.change_playback_speed now s delta).2.countP is_audio_action = 0 ∧
      (VideoPlayer.change_playback_speed now s delta).1.audio_process = none ∧
      (VideoPlayer.change_playback_speed now s delta).1.audio_available = false) ∧
    (∀ m, VideoPlayer.set_audio_volume s m = (s, [])) ∧
    (∀ sch d, (VideoPlayer.throttled_seek (s, sch) d).2 = [] ∧
      (VideoPlayer.throttled_seek (s, sch) d).1.1.audio_process = none ∧
      (VideoPlayer.throttled_seek (s, sch) d).1.1.audio_available = false) ∧
    (∀ env now2 idx,
      (VideoPlayer.load_video env now2 s idx).2.2.countP is_audio_action = 0 ∧
      (VideoPlayer.load_video env now2 s idx).1.audio_process = none ∧
      (VideoPlayer.load_video env now2 s idx).1.audio_available = false) := by
  obtain ⟨vfs, ci, ip, im, ts, cap, fps, fc, ps, st, sst, sd, ap, pso, stt, eps, aa, td⟩ := s
  dsimp only at hA hP
  subst hA
  subst hP
  refine ⟨fun f t => rfl, rfl, fun d => ?_, fun pos => ?_, fun now => ?_,
    fun now delta => ?_, fun m => rfl, fun sch d => ⟨rfl, rfl, rfl⟩,
    fun env now2 idx => ?_⟩
  · rcases cap with _ | c <;> exact ⟨rfl, rfl, rfl⟩
  · rcases cap with _ | c <;> exact ⟨rfl, rfl, rfl⟩
  · simp only [VideoPlayer.execute_throttled_seeks, VideoPlayer.show_status,
      VideoPlayer.play_audio, VideoPlayer.stop_audio]
    rcases pso with _ | ⟨p0, prest⟩
    · exact ⟨rfl, rfl, rfl⟩
    · rcases cap with _ | c <;> split_ifs <;>
        first
        | exact ⟨rfl, rfl, rfl⟩
        | simp_all [is_audio_action]
  · simp only [VideoPlayer.change_playback_speed, VideoPlayer.show_status]
    split_ifs <;>
      first
      | exact ⟨rfl, rfl, rfl⟩
      | simp_all [is_audio_action]
  · have h := load_video_no_audio env now2
      ⟨vfs, ci, ip, im, ts, cap, fps, fc, ps, st, sst, sd, none, pso, stt, eps,
        false, td⟩ idx rfl rfl
    exact ⟨by rw [h.1]; rfl, h.2.1, h.2.2⟩

/-- Witness for C9: with audio disabled, `play_audio` does nothing and a
seek emits only the decoder write. -/
theorem C9_audio_unavailable_witness :
    VideoPlayer.play_audio silent_state "b.mp4" 5 = (silent_state, []) ∧
      (VideoPlayer.seek silent_state 10).2.countP is_audio_action = 0 := by
  have h := C9_audio_unavailable silent_state rfl rfl
  exact ⟨h.1 "b.mp4" 5, (h.2.2.1 10).1⟩


section SeekTimerHelpers

/-- `stop_audio` only clears the audio handle; every other field is
kept. -/
lemma stop_audio_state (s : PlayerState) :
    (VideoPlayer.stop_audio s).1 = { s with audio_process := none } := by
  rcases hap : s.audio_process with _ | ⟨f, sp, r⟩
  · simp [VideoPlayer.stop_audio, hap]
  · cases r <;> simp [VideoPlayer.stop_audio, hap]

/-- A nonempty `execute_throttled_seeks` never touches the debounce
timer handle or the configured throttle delay. -/
lemma execute_throttled_seeks_timer_fields (now : ℚ) (s : PlayerState)
    (hne : s.pending_seek_operations ≠ []) :
    (VideoPlayer.execute_throttled_seeks now s).1.seek_throttle_timer =
      s.seek_throttle_timer ∧
    (VideoPlayer.execute_throttled_seeks now s).1.throttle_delay =
      s.throttle_delay := by
  obtain ⟨vfs, ci, ip, im, ts, cap, fps, fc, ps, st, sst, sd, ap, pso, stt, eps, aa, td⟩ := s
  dsimp only at hne ⊢
  simp only [VideoPlayer.execute_throttled_seeks, List.isEmpty_eq_true, hne,
    if_false, VideoPlayer.show_status, VideoPlayer.play_audio,
    VideoPlayer.stop_audio]
  rcases cap with _ | ⟨cp, cm, co⟩ <;> rcases ap with _ | ⟨pf, pp, pr⟩ <;> split_ifs <;>
    first
    | exact ⟨rfl, rfl⟩
    | (cases pr <;> exact ⟨rfl, rfl⟩)

/-- Under the timer invariant, `throttled_seek` cancels whatever timer
was pending and leaves exactly one live timer — a fresh one of duration
`throttle_delay` — whose id it stores as the new handle. -/
lemma throttled_seek_timer (p : PlayerState × Sched) (d : ℚ)
    (h : seek_inv p) :
    (VideoPlayer.throttled_seek p d).1.2.live =
      [⟨p.2.next_id, p.1.throttle_delay⟩] ∧
    (VideoPlayer.throttled_seek p d).1.1.seek_throttle_timer =
      some p.2.next_id ∧
    (VideoPlayer.throttled_seek p d).1.1.throttle_delay =
      p.1.throttle_delay := by
  rcases hst : p.1.seek_throttle_timer with _ | tid
  · have hnil : p.2.live = [] := by
      rcases hl : p.2.live with _ | ⟨t0, rest⟩
      · rfl
      · have := (h.2 t0 (by rw [hl]; exact List.mem_cons_self t0 rest)).1
        rw [hst] at this
        exact absurd this (by simp)
    rcases hap : p.1.audio_process with _ | ⟨f, sp, r⟩
    · refine ⟨?_, ?_, ?_⟩ <;>
        simp [VideoPlayer.throttled_seek, VideoPlayer.stop_audio, hap, hst, hnil]
    · cases r <;> refine ⟨?_, ?_, ?_⟩ <;>
        simp [VideoPlayer.throttled_seek, VideoPlayer.stop_audio, hap, hst, hnil]
  · have hnil : (cancel_timer p.2 tid).live = [] := by
      simp only [cancel_timer]
      rw [List.filter_eq_nil]
      intro t0 ht0
      have := (h.2 t0 ht0).1
      rw [hst] at this
      simp only [Option.some.injEq] at this
      simp [this]
    have hnid : (cancel_timer p.2 tid).next_id = p.2.next_id := rfl
    rcases hap : p.1.audio_process with _ | ⟨f, sp, r⟩
    · refine ⟨?_, ?_, ?_⟩ <;>
        simp [VideoPlayer.throttled_seek, VideoPlayer.stop_audio, hap, hst, hnil, hnid]
    · cases r <;> refine ⟨?_, ?_, ?_⟩ <;>
        simp [VideoPlayer.throttled_seek, VideoPlayer.stop_audio, hap, hst, hnil, hnid]

end SeekTimerHelpers

/-- One step of the seek subsystem preserves the timer invariant. -/
lemma seek_inv_step (p : PlayerState × Sched) (e : SeekEv)
    (h : seek_inv p) : seek_inv (seek_step p e).1 := by
  rcases e with d | tid | now
  · have ht := throttled_seek_timer p d h
    refine ⟨?_, fun t0 ht0 => ?_⟩
    · show (VideoPlayer.throttled_seek p d).1.2.live.length ≤ 1
      rw [ht.1]
      simp
    · replace ht0 : t0 ∈ (VideoPlayer.throttled_seek p d).1.2.live := ht0
      rw [ht.1] at ht0
      simp only [List.mem_singleton] at ht0
      subst ht0
      exact ⟨by rw [show (seek_step p (SeekEv.request d)).1.1.seek_throttle_timer =
          (VideoPlayer.throttled_seek p d).1.1.seek_throttle_timer from rfl, ht.2.1],
        by rw [show (seek_step p (SeekEv.request d)).1.1.throttle_delay =
          (VideoPlayer.throttled_seek p d).1.1.throttle_delay from rfl, ht.2.2]⟩
  · simp only [seek_step]
    split_ifs with hmem
    · refine ⟨?_, fun t0 ht0 => ?_⟩
      · calc (cancel_timer p.2 tid).live.length ≤ p.2.live.length :=
            List.length_filter_le _ _
          _ ≤ 1 := h.1
      · have ht0' : t0 ∈ p.2.live := List.mem_of_mem_filter ht0
        exact ⟨(h.2 t0 ht0').1, (h.2 t0 ht0').2⟩
    · exact h
  · simp only [seek_step]
    split_ifs with hflag
    · rcases hpend : p.1.pending_seek_operations with _ | ⟨p0, rest⟩
      · rw [execute_throttled_seeks_empty now p.1 hpend]
        exact h
      · have hT := execute_throttled_seeks_timer_fields now p.1
          (by rw [hpend]; exact List.cons_ne_nil p0 rest)
        refine ⟨h.1, fun t0 ht0 => ?_⟩
        rw [hT.1, hT.2]
        exact ⟨(h.2 t0 ht0).1, (h.2 t0 ht0).2⟩
    · exact h

/-- The timer invariant holds along every event trace. -/
lemma seek_inv_run (p : PlayerState × Sched) (evs : List SeekEv)
    (h : seek_inv p) : seek_inv (run_seek p evs).1 := by
  induction evs generalizing p with
  | nil => exact h
  | cons e rest ih =>
      simp only [run_seek]
      exact ih _ (seek_inv_step p e h)

/-- A single poll applies at most one consolidated seek. -/
lemma poll_one_write (p : PlayerState × Sched) (now : ℚ) :
    ((seek_step p (SeekEv.poll now)).2.countP is_set_position) ≤ 1 := by
  simp only [seek_step]
  split_ifs with hflag
  · rcases hpend : p.1.pending_seek_operations with _ | ⟨p0, rest⟩
    · rw [execute_throttled_seeks_empty now p.1 hpend]
      simp
    · rcases hc : p.1.cap with _ | c
      · have : (VideoPlayer.execute_throttled_seeks now p.1).2 = [] := by
          obtain ⟨p1, sch⟩ := p
          obtain ⟨vfs, ci, ip, im, ts, cap, fps, fc, ps, st, sst, sd, ap, pso, stt, eps, aa, td⟩ := p1
          dsimp only at hpend hc
          subst hpend
          subst hc
          simp only [VideoPlayer.execute_throttled_seeks, VideoPlayer.show_status]
          split_ifs <;> rfl
        rw [this]
        simp
      · rw [execute_throttled_seeks_one_write now p.1 c hc
          (by rw [hpend]; exact List.cons_ne_nil p0 rest)]
  · simp

/-- A second poll immediately after a poll (no request in between)
emits no action at all: only one consolidated seek per burst. -/
lemma poll_twice (p : PlayerState × Sched) (t1 t2 : ℚ) :
    (seek_step (seek_step p (SeekEv.poll t1)).1 (SeekEv.poll t2)).2 = [] := by
  rcases hflag : p.1.execute_pending_seek
  · simp [seek_step, hflag]
  · rcases hpend : p.1.pending_seek_operations with _ | ⟨p0, rest⟩
    · have he := execute_throttled_seeks_empty t1 p.1 hpend
      simp [seek_step, hflag, he, hpend,
        execute_throttled_seeks_empty t2 p.1 hpend]
    · have hcl := execute_throttled_seeks_clears t1 p.1
        (by rw [hpend]; exact List.cons_ne_nil p0 rest)
      simp [seek_step, hflag, hcl.2]

/-- C8: at most one debounce timer is ever pending — the invariant is
preserved along every event trace, and each `throttled_seek` cancels the
existing timer and leaves exactly one fresh timer of duration
`throttle_delay`; the timer callback only raises the ready flag (it
emits no action and touches neither the decoder capture nor the pending
list); a poll of the flag applies at most one consolidated seek, and a
second consecutive poll applies none — one consolidated seek per burst,
never two. -/
theorem C8_debounce_timer (p : PlayerState × Sched) :
    (∀ evs, seek_inv p → seek_inv (run_seek p evs).1) ∧
    (∀ d, seek_inv p →
      (seek_step p (SeekEv.request d)).1.2.live =
        [⟨p.2.next_id, p.1.throttle_delay⟩]) ∧
    (∀ tid, ((seek_step p (SeekEv.fire tid)).1.1 = p.1 ∨
        (seek_step p (SeekEv.fire tid)).1.1 =
          VideoPlayer.set_execute_seek_flag p.1) ∧
      (seek_step p (SeekEv.fire tid)).1.1.cap = p.1.cap ∧
      (seek_step p (SeekEv.fire tid)).1.1.pending_seek_operations =
        p.1.pending_seek_operations ∧
      (seek_step p (SeekEv.fire tid)).2 = []) ∧
    (∀ now, ((seek_step p (SeekEv.poll now)).2.countP is_set_position) ≤ 1) ∧
    (∀ t1 t2, (seek_step (seek_step p (SeekEv.poll t1)).1 (SeekEv.poll t2)).2 = []) := by
  refine ⟨fun evs h => seek_inv_run p evs h,
    fun d h => (throttled_seek_timer p d h).1,
    fun tid => ?_, fun now => poll_one_write p now,
    fun t1 t2 => poll_twice p t1 t2⟩
  simp only [seek_step]
  split_ifs with hmem
  · exact ⟨Or.inr rfl, rfl, rfl, rfl⟩
  · exact ⟨Or.inl rfl, rfl, rfl, rfl⟩

/-- Witness for C8: from a fresh scheduler, one request leaves exactly
one live timer, of duration `throttle_delay`. -/
theorem C8_debounce_timer_witness :
    (seek_step (base_state, (⟨[], 0⟩ : Sched)) (SeekEv.request 10)).1.2.live =
      [⟨(0 : ℕ), base_state.throttle_delay⟩] :=
  (C8_debounce_timer (base_state, (⟨[], 0⟩ : Sched))).2.1 10
    (by constructor <;> simp)
